import Mathlib

/-!
Verification of the bookmark tab planner (source files `main.py` and `llm.py`).

The development shallowly embeds the two modules:
* the heuristic scoring helpers `_tokenize`, `_combine_fields`,
  `_bookmark_tokens` and `_score_bookmark` from `main.py`;
* the LLM planning pipeline `_get_client` / `select_tabs_with_llm` from
  `llm.py`, with the outbound network call abstracted into an explicit
  environment value, and the `/tabs` endpoint handler `plan_tabs_llm`.

Python floats that the program manipulates (scores) are modelled as exact
rationals: every score the code produces (`0.0`, `0.5`, small counts, values
copied out of a decoded JSON document) is an exact decimal quantity.
-/

namespace TabPlanner

/-- A character counted as a word character by the Python regex class
`\w`, modelled over the ASCII range: letters, digits and the underscore. -/
def isWordChar (c : Char) : Bool := c.isAlphanum || c = '_'

/-- A character matched by the regex class `[\w-]`: word characters plus the
hyphen. -/
def isTokenChar (c : Char) : Bool := isWordChar c || c = '-'

/-- Python `str.lower`, modelled characterwise over the ASCII range. -/
def pyLower (s : String) : String := String.mk (s.data.map Char.toLower)

/-- Splits a character list into its maximal runs of `[\w-]` characters
(`acc` holds the current run, reversed). -/
def tokenRunsAux : List Char → List Char → List (List Char)
  | [], acc => if acc.isEmpty then [] else [acc.reverse]
  | c :: rest, acc =>
    if isTokenChar c then tokenRunsAux rest (c :: acc)
    else if acc.isEmpty then tokenRunsAux rest []
    else acc.reverse :: tokenRunsAux rest []

/-- Maximal runs of `[\w-]` characters of a string's characters. -/
def tokenRuns (cs : List Char) : List (List Char) := tokenRunsAux cs []

/-- The regex match `\b[\w-]+\b` extracts, from one maximal `[\w-]` run, the
segment from the run's first word character to its last word character: the
word boundaries `\b` force the match to start and end on a word character, so
leading and trailing hyphens of the run are trimmed. -/
def runMatch (run : List Char) : List Char :=
  ((run.dropWhile fun c => !isWordChar c).reverse.dropWhile
      fun c => !isWordChar c).reverse

/-- Models `re.findall(r"\b[\w-]+\b", s)`: one match per maximal `[\w-]` run that
contains at least one word character. -/
def findTokens (s : String) : List String :=
  ((tokenRuns s.data).filter fun r => r.any isWordChar).map
    fun r => String.mk (runMatch r)

/-- Models `_tokenize` from `main.py`: lowercase the text, collect the regex matches,
and keep the nonempty ones as a set. -/
def tokenize (text : String) : Finset String :=
  ((findTokens (pyLower text)).filter fun t => t ≠ "").toFinset

/-- The bookmark record validated by the HTTP layer (`Bookmark` in `main.py`);
the `url` is kept as a plain string here, its well-formedness being pydantic's
concern at request-parsing time. -/
structure Bookmark where
  title : String
  url : String
  tags : Option (List String)
  description : Option String
deriving DecidableEq

/-- Models `_combine_fields` from `main.py`: the title, then the description when
truthy (present and nonempty), then the tags when truthy (present and a
nonempty list). -/
def combine_fields (b : Bookmark) : List String :=
  [b.title]
    ++ (match b.description with
        | some d => if d = "" then [] else [d]
        | none => [])
    ++ (match b.tags with
        | some ts => if ts = [] then [] else ts
        | none => [])

/-- Models `_bookmark_tokens` from `main.py`: tokenize the space-joined combined
fields. -/
def bookmark_tokens (b : Bookmark) : Finset String :=
  tokenize (String.intercalate " " (combine_fields b))

/-- Models `_score_bookmark` from `main.py`. -/
def score_bookmark (b : Bookmark) (prompt_tokens : Finset String) :
    ℚ × String :=
  if prompt_tokens = ∅ then
    (0, "No prompt keywords; preserving original order.")
  else
    let bts := bookmark_tokens b
    if bts = ∅ then
      (0, "Bookmark has no descriptive text to compare.")
    else
      let matched := prompt_tokens ∩ bts
      if matched ≠ ∅ then
        ((matched.card : ℚ),
          "Matched keywords: " ++ String.intercalate ", " (matched.sort (· ≤ ·)))
      else
        let title_lower := pyLower b.title
        if ∃ t ∈ prompt_tokens, t.data <:+: title_lower.data then
          (1/2, "Prompt keywords appear within the bookmark title.")
        else
          (0, "No keyword matches; keeping bookmark for context.")

/-- One ranked entry of the heuristic path: the bookmark's position in the
input sequence, the bookmark itself, and the score/reason pair produced by
`score_bookmark`. -/
structure HeuristicSuggestion where
  index : ℕ
  bookmark : Bookmark
  score : ℚ
  reason : String
deriving DecidableEq

/-- Comparison ranking scored bookmarks: descending score, with ties broken by
ascending original index. -/
def rankLE (a b : HeuristicSuggestion) : Bool :=
  decide (b.score < a.score ∨ (a.score = b.score ∧ a.index ≤ b.index))

/-- Modelled from the spec: the heuristic ranking routine is not among the
provided source files — `main.py` holds only its scoring helpers `_tokenize`,
`_bookmark_tokens` and `_score_bookmark`. Following §4.3 of the spec, every
bookmark is scored against the prompt's token set, the scored list is stably
sorted by (descending score, ascending original index), and the result is
truncated to `limit` entries, or not truncated at all when `limit ≤ 0`
("no cap"). -/
def heuristic_rank (prompt : String) (bookmarks : List Bookmark)
    (limit : Int) : List HeuristicSuggestion :=
  let pts := tokenize prompt
  let scored := bookmarks.enum.map fun p =>
    HeuristicSuggestion.mk p.1 p.2 (score_bookmark p.2 pts).1
      (score_bookmark p.2 pts).2
  let ranked := scored.mergeSort rankLE
  if limit ≤ 0 then ranked else ranked.take limit.toNat

/-- A decoded JSON document, as produced by `json.loads`: numbers are modelled
as exact rationals, objects as association lists in document order. -/
inductive Json where
  | null
  | bool (b : Bool)
  | num (q : ℚ)
  | str (s : String)
  | arr (items : List Json)
  | obj (fields : List (String × Json))

/-- Dictionary lookup (`d[k]` and `d.get(k)`): the value at the first matching
key. -/
def jsonLookup : List (String × Json) → String → Option Json
  | [], _ => none
  | (k, v) :: rest, key => if k = key then some v else jsonLookup rest key

/-- Value of the digit list of a decimal numeral. -/
def digitsVal (ds : List Char) : ℕ :=
  ds.foldl (fun n c => 10 * n + (c.toNat - 48)) 0

/-- Parses an unsigned decimal numeral: digits with at most one decimal point
and at least one digit overall. -/
def parseDecimalCore (cs : List Char) : Option ℚ :=
  let intPart := cs.takeWhile Char.isDigit
  let rest := cs.dropWhile Char.isDigit
  match rest with
  | [] => if intPart.isEmpty then none else some (digitsVal intPart : ℚ)
  | '.' :: frac =>
    if frac.all Char.isDigit ∧ (intPart ≠ [] ∨ frac ≠ []) then
      some ((digitsVal intPart : ℚ) + (digitsVal frac : ℚ) / (10 ^ frac.length : ℚ))
    else none
  | _ => none

/-- Parses an optionally signed decimal numeral. -/
def parseDecimal (s : String) : Option ℚ :=
  match s.data with
  | '+' :: rest => parseDecimalCore rest
  | '-' :: rest => (parseDecimalCore rest).map Neg.neg
  | cs => parseDecimalCore cs

/-- Outcome of Python `float(x)` on a decoded JSON value: numbers pass
through, booleans convert to 0 and 1, and `None`, lists and objects raise
`TypeError` (`none` here). Strings are parsed as optionally signed plain
decimal numerals; the further string shapes Python's `float` accepts
(exponents, infinities, embedded underscores, surrounding whitespace) do not
occur in this development's concrete inputs and are modelled as failures. -/
def pyFloat : Json → Option ℚ
  | .num q => some q
  | .bool b => some (if b then 1 else 0)
  | .str s => parseDecimal s
  | .null => none
  | .arr _ => none
  | .obj _ => none

/-- The `TabSuggestion` dataclass from `llm.py`. The dataclass performs no
validation, so `title`, `url` and `reason` hold whatever JSON values the model
response supplied; only `score` is forced through `float()`. -/
structure TabSuggestion where
  title : Json
  url : Json
  reason : Json
  score : ℚ

/-- Conversion of one item of the response's `tabs` array into a
`TabSuggestion` (the loop body of `select_tabs_with_llm`): non-dict items are
skipped, a missing `title` or `url` (`KeyError`) or a `score` value that
`float()` rejects (`TypeError` or `ValueError`) drops the item, a missing
`reason` defaults to the placeholder string, and a missing `score` defaults to
`0.5`. -/
def parseTabItem : Json → Option TabSuggestion
  | .obj fields =>
    match jsonLookup fields "title", jsonLookup fields "url" with
    | some t, some u =>
      match (match jsonLookup fields "score" with
             | none => some (1 / 2 : ℚ)
             | some v => pyFloat v) with
      | some sc =>
        some (TabSuggestion.mk t u
          ((jsonLookup fields "reason").getD (.str "No reason provided.")) sc)
      | none => none
    | _, _ => none
  | _ => none

/-- The exceptions `select_tabs_with_llm` can raise: `ValueError` for input
validation, `LLMSuggestionError` (the `RuntimeError` subclass defined in
`llm.py`) for the missing-credential case and every planning failure, and
`AttributeError` for the uncaught case of a JSON payload that is not an
object. -/
inductive PyError where
  | valueError (msg : String)
  | llmSuggestionError (msg : String)
  | attributeError (msg : String)
deriving DecidableEq

/-- The exception class of an error, forgetting the message. -/
inductive ErrKind where
  | valueError
  | llmSuggestionError
  | attributeError
deriving DecidableEq

/-- Maps an exception to its class. -/
def PyError.kind : PyError → ErrKind
  | .valueError _ => .valueError
  | .llmSuggestionError _ => .llmSuggestionError
  | .attributeError _ => .attributeError

/-- Result of `json.loads` on a message's content string: either the string is
not valid JSON, or it decodes to a JSON document. -/
inductive ParsedContent where
  | invalid
  | json (payload : Json)

/-- A message of a chat completion choice; `content` is `None` or a string,
the latter abstracted by its decoding. -/
structure ChatMessage where
  content : Option ParsedContent

/-- One completion choice; `message` may be `None`. -/
structure ChatChoice where
  message : Option ChatMessage

/-- A chat completion response. -/
structure ChatResponse where
  choices : List ChatChoice

/-- The process environment and network outcome `select_tabs_with_llm` runs
against: the value of the `OPENAI_API_KEY` environment variable, and the
outcome of the single `chat.completions.create` call (an exception message, or
a response). -/
structure LlmEnv where
  apiKey : Option String
  apiResult : Except String ChatResponse

/-- Python `str.strip()`: removes leading and trailing whitespace. -/
def pyStrip (s : String) : String :=
  String.mk
    (((s.data.dropWhile Char.isWhitespace).reverse.dropWhile
        Char.isWhitespace).reverse)

/-- Models `_get_client` from `llm.py`: a missing or empty `OPENAI_API_KEY`
raises `LLMSuggestionError`; otherwise a client is produced. -/
def get_client (apiKey : Option String) : Except PyError Unit :=
  if apiKey.getD "" = "" then
    .error (.llmSuggestionError
      "Missing OPENAI_API_KEY environment variable; cannot call the language model.")
  else .ok ()

/-- The `BookmarkPayload` pydantic model from `llm.py` (same shape as the
HTTP layer's `Bookmark`). -/
abbrev BookmarkPayload := Bookmark

/-- The `BrowsingHistoryPayload` pydantic model from `llm.py`. -/
structure BrowsingHistoryPayload where
  title : String
  url : String
  last_visited : Option String
deriving DecidableEq

/-- The `OpenTabPayload` pydantic model from `llm.py`. -/
structure OpenTabPayload where
  title : String
  url : String
  opened_at : Option String
  pinned : Option Bool
deriving DecidableEq

/-- Models `payload.get("tabs")` and the subsequent list check in
`select_tabs_with_llm`: a payload that is not a JSON object has no `.get`
attribute (`AttributeError`, which the function does not catch); a missing
`tabs` key or a non-list value raises `LLMSuggestionError`. -/
def extractTabsData : Json → Except PyError (List Json)
  | .obj fields =>
    match jsonLookup fields "tabs" with
    | some (.arr items) => .ok items
    | _ => .error (.llmSuggestionError
        "Language model response did not include a \x27tabs\x27 list.")
  | _ => .error (.attributeError "payload object has no attribute get")

/-- Models `select_tabs_with_llm` from `llm.py`. The network call is replaced
by the outcome recorded in `env`. The pydantic `model_validate` calls on the
already-typed payload lists always succeed and are elided; `history` and
`open_tabs` only shape the rendered user message, on which the returned value
does not depend. -/
def select_tabs_with_llm (env : LlmEnv) (prompt : String)
    (bookmarks : List BookmarkPayload)
    (history : Option (List BrowsingHistoryPayload))
    (open_tabs : Option (List OpenTabPayload)) (max_tabs : Int) :
    Except PyError (List TabSuggestion) :=
  if pyStrip prompt = "" then
    .error (.valueError "Prompt must not be empty.")
  else if bookmarks = [] then
    .error (.valueError "At least one bookmark must be provided.")
  else if max_tabs ≤ 0 then
    .error (.valueError "max_tabs must be greater than zero.")
  else
    match get_client env.apiKey with
    | .error e => .error e
    | .ok _ =>
      match env.apiResult with
      | .error exc =>
        .error (.llmSuggestionError ("OpenAI API request failed: " ++ exc))
      | .ok response =>
        match response.choices with
        | [] =>
          .error (.llmSuggestionError "Language model returned no choices.")
        | choice :: _ =>
          match choice.message with
          | none =>
            .error (.llmSuggestionError "Language model returned an empty message.")
          | some message =>
            match message.content with
            | none =>
              .error (.llmSuggestionError "Language model returned an empty message.")
            | some .invalid =>
              .error (.llmSuggestionError "Language model response was not valid JSON.")
            | some (.json payload) =>
              match extractTabsData payload with
              | .error e => .error e
              | .ok tabsData =>
                .ok ((tabsData.filterMap parseTabItem).take max_tabs.toNat)

/-- The items of the `tabs` array carried by the environment's recorded
response when every stage of the response is well-shaped — exactly the items
the parsing loop of `select_tabs_with_llm` iterates over — and `[]`
otherwise. -/
def envTabItems (env : LlmEnv) : List Json :=
  match env.apiResult with
  | .error _ => []
  | .ok response =>
    match response.choices with
    | [] => []
    | choice :: _ =>
      match choice.message with
      | none => []
      | some message =>
        match message.content with
        | some (.json (.obj fields)) =>
          match jsonLookup fields "tabs" with
          | some (.arr items) => items
          | _ => []
        | _ => []

/-- States that every numeric `score` field of a `tabs` item lies in `[0, 1]`:
whenever the item is an object whose `score` entry converts under `float()`,
the converted value is in the unit interval. -/
def scoreOk (item : Json) : Prop :=
  ∀ fields, item = Json.obj fields → ∀ v, jsonLookup fields "score" = some v →
    ∀ q, pyFloat v = some q → 0 ≤ q ∧ q ≤ 1

/-- The `MAX_TABS_DEFAULT` constant from `main.py`. -/
def MAX_TABS_DEFAULT : Int := 5

/-- The pydantic `Tab` response model from `main.py`. -/
structure Tab where
  title : String
  url : String
  reason : String
  score : ℚ
deriving DecidableEq

/-- Models pydantic validation of one response `Tab`: `title`, `url` and
`reason` must be strings and `url` must pass the `HttpUrl` check, modelled as
an `http://` or `https://` prefix followed by a nonempty remainder. In the
handler this construction happens outside the `try` block, so its failures are
uncaught. -/
def mkTab (s : TabSuggestion) : Except PyError Tab :=
  match s.title, s.url, s.reason with
  | .str t, .str u, .str r =>
    if (u.startsWith "http://" ∧ 7 < u.length) ∨
        (u.startsWith "https://" ∧ 8 < u.length) then
      .ok (Tab.mk t u r s.score)
    else .error (.valueError "Input should be a valid URL")
  | _, _, _ => .error (.valueError "Input should be a valid string")

/-- Sequencing of `mkTab` over the suggestion list (the handler's list
comprehension): the first validation failure aborts the whole list. -/
def mkTabs : List TabSuggestion → Except PyError (List Tab)
  | [] => .ok []
  | s :: rest =>
    match mkTab s with
    | .error e => .error e
    | .ok t =>
      match mkTabs rest with
      | .error e => .error e
      | .ok ts => .ok (t :: ts)

/-- An HTTP outcome of the `/tabs` handler: a response body (the list of
tabs), or an error status with a detail message. Exceptions the handler does
not catch surface as status 500. -/
inductive HttpResult where
  | ok (tabs : List Tab)
  | error (status : Nat) (detail : String)
deriving DecidableEq

/-- Models the `/tabs` endpoint handler `plan_tabs_llm` from `main.py`: a
non-positive `limit` query parameter is replaced by `MAX_TABS_DEFAULT` before
the planner is called; `ValueError` from the planner maps to HTTP 400,
`LLMSuggestionError` to 502, an empty suggestion list to 502, and exceptions
the handler does not catch (`AttributeError` on a non-object payload, pydantic
failures while building the response `Tab`s) surface as a 500. The `model` and
`temperature` parameters only shape the outbound request. -/
def plan_tabs_llm (env : LlmEnv) (prompt : String) (bookmarks : List Bookmark)
    (limit : Int) (model : Option String) (temperature : ℚ) : HttpResult :=
  let max_tabs := if 0 < limit then limit else MAX_TABS_DEFAULT
  match select_tabs_with_llm env prompt bookmarks none none max_tabs with
  | .error (.valueError msg) => .error 400 msg
  | .error (.llmSuggestionError msg) => .error 502 msg
  | .error (.attributeError msg) => .error 500 msg
  | .ok [] => .error 502 "Language model returned no tab suggestions."
  | .ok suggestions =>
    match mkTabs suggestions with
    | .error _ => .error 500 "Internal Server Error"
    | .ok tabs => .ok tabs

/-- A well-formed `tabs` item: `title`, `url`, `reason` and a numeric `score`
all present. -/
def wellFormedItem : Json :=
  Json.obj [("title", Json.str "T"), ("url", Json.str "https://a"),
    ("reason", Json.str "R"), ("score", Json.num (7 / 10))]

/-- A `tabs` item missing its `url` key. -/
def missingUrlItem : Json :=
  Json.obj [("title", Json.str "T2"), ("reason", Json.str "R2"),
    ("score", Json.num (2 / 10))]

/-- An environment with a configured key whose recorded response carries one
well-formed item and one item missing `url`. -/
def envTwoItems : LlmEnv :=
  LlmEnv.mk (some "sk-test")
    (Except.ok (ChatResponse.mk [ChatChoice.mk (some (ChatMessage.mk
      (some (ParsedContent.json
        (Json.obj [("tabs", Json.arr [wellFormedItem, missingUrlItem])])))))]))

/-! ### Helper lemmas -/

/-- ASCII lowercasing is idempotent. -/
theorem toLower_idem (c : Char) : c.toLower.toLower = c.toLower := by
  simp only [Char.toLower]
  by_cases h : c.toNat ≥ 65 ∧ c.toNat ≤ 90
  · have hv : (c.toNat + 32).isValidChar := Or.inl (by omega)
    have ht : (Char.ofNat (c.toNat + 32)).toNat = c.toNat + 32 := by
      simp only [Char.ofNat, dif_pos hv]
      rfl
    rw [if_pos h, ht, if_neg (by omega)]
  · rw [if_neg h, if_neg h]

/-- Python lowercasing is idempotent. -/
theorem pyLower_idem (s : String) : pyLower (pyLower s) = pyLower s := by
  simp only [pyLower, List.map_map]
  exact congrArg String.mk (List.map_congr_left fun c _ => toLower_idem c)

/-! ### C1 -/

/-- C1: for every bookmark and nonempty prompt token set sharing at least one
token with the bookmark's combined-text token set, `_score_bookmark` returns
exactly the size of the intersection as its score and a reason listing the
matched tokens in lexicographically sorted order, comma-joined. -/
theorem score_bookmark_counts_intersection (b : Bookmark)
    (pts : Finset String) (hpts : pts.Nonempty)
    (hint : (pts ∩ bookmark_tokens b).Nonempty) :
    score_bookmark b pts =
      (((pts ∩ bookmark_tokens b).card : ℚ),
        "Matched keywords: " ++
          String.intercalate ", " ((pts ∩ bookmark_tokens b).sort (· ≤ ·))) := by
  have h1 : pts ≠ ∅ := Finset.nonempty_iff_ne_empty.mp hpts
  have h2 : bookmark_tokens b ≠ ∅ :=
    Finset.nonempty_iff_ne_empty.mp
      (hint.mono Finset.inter_subset_right)
  have h3 : pts ∩ bookmark_tokens b ≠ ∅ := Finset.nonempty_iff_ne_empty.mp hint
  simp only [score_bookmark, if_neg h1, if_neg h2, if_pos h3]

/-- Witness for C1 at a concrete bookmark and prompt token set. -/
theorem score_bookmark_counts_intersection_witness :
    ((tokenize "rust guide").Nonempty ∧
      (tokenize "rust guide" ∩
        bookmark_tokens (Bookmark.mk "Rust Guide" "https://a" none none)).Nonempty) ∧
    score_bookmark (Bookmark.mk "Rust Guide" "https://a" none none)
        (tokenize "rust guide") =
      (((tokenize "rust guide" ∩
          bookmark_tokens (Bookmark.mk "Rust Guide" "https://a" none none)).card : ℚ),
        "Matched keywords: " ++
          String.intercalate ", "
            ((tokenize "rust guide" ∩
              bookmark_tokens
                (Bookmark.mk "Rust Guide" "https://a" none none)).sort (· ≤ ·))) :=
  ⟨⟨by decide, by decide⟩,
    score_bookmark_counts_intersection _ _ (by decide) (by decide)⟩

/-- Branch lemma for `_score_bookmark`: with a nonempty prompt token set and
an empty bookmark token set, the no-descriptive-text branch is taken. -/
theorem score_bookmark_bts_empty (b : Bookmark) (pts : Finset String)
    (h1 : pts ≠ ∅) (hbt : bookmark_tokens b = ∅) :
    score_bookmark b pts = (0, "Bookmark has no descriptive text to compare.") := by
  simp only [score_bookmark, if_neg h1, if_pos hbt]

/-! ### C3 -/

/-- C3 as stated is false: for the bookmark titled `"!!!"` (whose
combined-text token set is empty) and the nonempty prompt token set `{"!"}`
whose token `"!"` is a substring of the lower-cased title, `_score_bookmark`
returns score `0`, not `0.5`. -/
theorem score_bookmark_empty_substring_cex :
    bookmark_tokens (Bookmark.mk "!!!" "https://x" none none) = ∅ ∧
    ({"!"} : Finset String).Nonempty ∧
    (∃ t ∈ ({"!"} : Finset String),
      t.data <:+: (pyLower (Bookmark.mk "!!!" "https://x" none none).title).data) ∧
    (score_bookmark (Bookmark.mk "!!!" "https://x" none none) {"!"}).1 ≠ 1 / 2 := by
  refine ⟨by decide, by decide, by decide, ?_⟩
  rw [score_bookmark_bts_empty _ _ (by decide) (by decide)]
  norm_num

/-- C3 amended: for every bookmark whose combined-text token set is empty and
every nonempty prompt token set, even when some prompt token is a substring of
the lower-cased title, `_score_bookmark` returns score exactly `0` with the
no-descriptive-text reason — the empty-bookmark-token branch short-circuits
before the title-substring check is reached. -/
theorem score_bookmark_empty_tokens (b : Bookmark) (pts : Finset String)
    (hpts : pts.Nonempty) (hbt : bookmark_tokens b = ∅)
    (hsub : ∃ t ∈ pts, t.data <:+: (pyLower b.title).data) :
    score_bookmark b pts = (0, "Bookmark has no descriptive text to compare.") :=
  score_bookmark_bts_empty b pts (Finset.nonempty_iff_ne_empty.mp hpts) hbt

/-- Witness for the amended C3 at the concrete counterexample input. -/
theorem score_bookmark_empty_tokens_witness :
    (({"!"} : Finset String).Nonempty ∧
      bookmark_tokens (Bookmark.mk "!!!" "https://x" none none) = ∅ ∧
      (∃ t ∈ ({"!"} : Finset String),
        t.data <:+: (pyLower (Bookmark.mk "!!!" "https://x" none none).title).data)) ∧
    score_bookmark (Bookmark.mk "!!!" "https://x" none none) {"!"} =
      (0, "Bookmark has no descriptive text to compare.") :=
  ⟨⟨by decide, by decide, by decide⟩,
    score_bookmark_empty_tokens _ _ (by decide) (by decide) (by decide)⟩

/-! ### C8 -/

/-- C8: `_tokenize` is case-insensitive — tokenizing a text and tokenizing its
lower-cased form yield the same set — and deterministic: tokenizing the same
text twice yields identical sets. -/
theorem tokenize_case_insensitive (text : String) :
    tokenize text = tokenize (pyLower text) ∧ tokenize text = tokenize text :=
  ⟨by simp only [tokenize, pyLower_idem], rfl⟩

/-- Appending to a nonempty string yields a nonempty string. -/
theorem append_ne_empty_left (p r : String) (hp : p.data ≠ []) : p ++ r ≠ "" := by
  intro h
  have hd : p.data ++ r.data = ([] : List Char) := by
    simpa [String.data_append] using congrArg String.data h
  exact hp (List.append_eq_nil.mp hd).1

/-! ### C9 -/

/-- C9: every score `_score_bookmark` returns is exactly `0`, exactly `0.5`,
or a positive whole number, and every reason it returns is a nonempty
string. -/
theorem score_bookmark_shape (b : Bookmark) (pts : Finset String) :
    ((score_bookmark b pts).1 = 0 ∨ (score_bookmark b pts).1 = 1 / 2 ∨
      ∃ n : ℕ, 0 < n ∧ (score_bookmark b pts).1 = (n : ℚ)) ∧
    (score_bookmark b pts).2 ≠ "" := by
  simp only [score_bookmark]
  split_ifs with h1 h2 h3 h4
  · exact ⟨Or.inl rfl, by decide⟩
  · exact ⟨Or.inl rfl, by decide⟩
  · refine ⟨Or.inr (Or.inr ⟨(pts ∩ bookmark_tokens b).card, ?_, rfl⟩),
      append_ne_empty_left _ _ (by decide)⟩
    exact Finset.card_pos.mpr (Finset.nonempty_iff_ne_empty.mpr h3)
  · exact ⟨Or.inr (Or.inl rfl), by decide⟩
  · exact ⟨Or.inl rfl, by decide⟩

/-! ### C5 -/

/-- C5: an empty bookmark list — and likewise a blank prompt or a non-positive
`max_tabs` — makes `select_tabs_with_llm` fail with `ValueError`, and the
outcome is identical under every environment: it depends neither on the
credential nor on the network outcome, so the failure is decided before any
client construction or network call. -/
theorem select_tabs_validates_first (env env2 : LlmEnv) (prompt : String)
    (bookmarks : List BookmarkPayload)
    (history : Option (List BrowsingHistoryPayload))
    (open_tabs : Option (List OpenTabPayload)) (max_tabs : Int)
    (h : pyStrip prompt = "" ∨ bookmarks = [] ∨ max_tabs ≤ 0) :
    (∃ msg, select_tabs_with_llm env prompt bookmarks history open_tabs max_tabs =
        Except.error (PyError.valueError msg)) ∧
    select_tabs_with_llm env prompt bookmarks history open_tabs max_tabs =
      select_tabs_with_llm env2 prompt bookmarks history open_tabs max_tabs := by
  rcases h with h | h | h
  · simp only [select_tabs_with_llm, if_pos h]
    exact ⟨⟨"Prompt must not be empty.", rfl⟩, by trivial⟩
  · by_cases hp : pyStrip prompt = ""
    · simp only [select_tabs_with_llm, if_pos hp]
      exact ⟨⟨"Prompt must not be empty.", rfl⟩, by trivial⟩
    · simp only [select_tabs_with_llm, if_neg hp, if_pos h]
      exact ⟨⟨"At least one bookmark must be provided.", rfl⟩, by trivial⟩
  · by_cases hp : pyStrip prompt = ""
    · simp only [select_tabs_with_llm, if_pos hp]
      exact ⟨⟨"Prompt must not be empty.", rfl⟩, by trivial⟩
    · by_cases hb : bookmarks = []
      · simp only [select_tabs_with_llm, if_neg hp, if_pos hb]
        exact ⟨⟨"At least one bookmark must be provided.", rfl⟩, by trivial⟩
      · simp only [select_tabs_with_llm, if_neg hp, if_neg hb, if_pos h]
        exact ⟨⟨"max_tabs must be greater than zero.", rfl⟩, by trivial⟩

/-- Witness for C5: an empty bookmark list, one environment with no key and a
failed call, another with a key and a successful call. -/
theorem select_tabs_validates_first_witness :
    (pyStrip "find docs" = "" ∨ ([] : List BookmarkPayload) = [] ∨ (3 : Int) ≤ 0) ∧
    ((∃ msg, select_tabs_with_llm (LlmEnv.mk none (Except.error "net down"))
        "find docs" [] none none 3 = Except.error (PyError.valueError msg)) ∧
      select_tabs_with_llm (LlmEnv.mk none (Except.error "net down"))
          "find docs" [] none none 3 =
        select_tabs_with_llm (LlmEnv.mk (some "sk-test")
          (Except.ok (ChatResponse.mk []))) "find docs" [] none none 3) :=
  ⟨Or.inr (Or.inl rfl),
    select_tabs_validates_first (LlmEnv.mk none (Except.error "net down"))
      (LlmEnv.mk (some "sk-test") (Except.ok (ChatResponse.mk [])))
      "find docs" [] none none 3 (Or.inr (Or.inl rfl))⟩

/-! ### C6 -/

/-- C6 as stated is false: the absent-credential failure is raised as
`LLMSuggestionError`, which is the same exception kind as planning (LLM)
failures — only the message differs. Concretely, with valid inputs, an unset
key yields the same error kind as a failed API call. -/
theorem missing_key_same_kind_as_planning_cex :
    select_tabs_with_llm (LlmEnv.mk none (Except.ok (ChatResponse.mk [])))
        "p" [Bookmark.mk "Docs" "https://a" none none] none none 3 =
      Except.error (PyError.llmSuggestionError
        "Missing OPENAI_API_KEY environment variable; cannot call the language model.") ∧
    select_tabs_with_llm (LlmEnv.mk (some "sk-test") (Except.error "boom"))
        "p" [Bookmark.mk "Docs" "https://a" none none] none none 3 =
      Except.error (PyError.llmSuggestionError "OpenAI API request failed: boom") ∧
    (PyError.llmSuggestionError
        "Missing OPENAI_API_KEY environment variable; cannot call the language model.").kind =
      (PyError.llmSuggestionError "OpenAI API request failed: boom").kind :=
  ⟨rfl, rfl, rfl⟩

/-- C6 amended: when the API credential is absent or empty and the inputs pass
validation, `select_tabs_with_llm` fails with `LLMSuggestionError` carrying
the missing-key message — a kind distinct from the validation kind
(`ValueError`), but the same exception class as planning errors. -/
theorem missing_key_is_llm_suggestion_error (env : LlmEnv) (prompt : String)
    (bookmarks : List BookmarkPayload)
    (history : Option (List BrowsingHistoryPayload))
    (open_tabs : Option (List OpenTabPayload)) (max_tabs : Int)
    (hkey : env.apiKey.getD "" = "") (hp : pyStrip prompt ≠ "")
    (hb : bookmarks ≠ []) (hm : 0 < max_tabs) :
    select_tabs_with_llm env prompt bookmarks history open_tabs max_tabs =
      Except.error (PyError.llmSuggestionError
        "Missing OPENAI_API_KEY environment variable; cannot call the language model.") ∧
    ErrKind.llmSuggestionError ≠ ErrKind.valueError := by
  refine ⟨?_, by decide⟩
  simp only [select_tabs_with_llm, if_neg hp, if_neg hb, if_neg (not_le.mpr hm),
    get_client, if_pos hkey]

/-- Witness for the amended C6 at a concrete environment. -/
theorem missing_key_is_llm_suggestion_error_witness :
    ((LlmEnv.mk none (Except.ok (ChatResponse.mk []))).apiKey.getD "" = "" ∧
      pyStrip "p" ≠ "" ∧ [Bookmark.mk "Docs" "https://a" none none] ≠ [] ∧
      (0 : Int) < 3) ∧
    (select_tabs_with_llm (LlmEnv.mk none (Except.ok (ChatResponse.mk [])))
        "p" [Bookmark.mk "Docs" "https://a" none none] none none 3 =
      Except.error (PyError.llmSuggestionError
        "Missing OPENAI_API_KEY environment variable; cannot call the language model.") ∧
      ErrKind.llmSuggestionError ≠ ErrKind.valueError) :=
  ⟨⟨rfl, by decide, by decide, by decide⟩,
    missing_key_is_llm_suggestion_error
      (LlmEnv.mk none (Except.ok (ChatResponse.mk []))) "p"
      [Bookmark.mk "Docs" "https://a" none none] none none 3
      rfl (by decide) (by decide) (by decide)⟩

/-! ### Inversion helpers for the LLM path -/

/-- Inversion for `extractTabsData`: success means the payload is an object
whose `tabs` entry is an array holding exactly the returned items. -/
theorem extractTabsData_ok_inv {payload : Json} {items : List Json}
    (h : extractTabsData payload = Except.ok items) :
    ∃ fields, payload = Json.obj fields ∧
      jsonLookup fields "tabs" = some (Json.arr items) := by
  cases payload with
  | obj fields =>
    refine ⟨fields, rfl, ?_⟩
    cases hl : jsonLookup fields "tabs" with
    | none => simp [extractTabsData, hl] at h
    | some v =>
      cases v with
      | arr items2 =>
        simp only [extractTabsData, hl, Except.ok.injEq] at h
        rw [h]
      | null => simp [extractTabsData, hl] at h
      | bool b => simp [extractTabsData, hl] at h
      | num q => simp [extractTabsData, hl] at h
      | str s => simp [extractTabsData, hl] at h
      | obj fields2 => simp [extractTabsData, hl] at h
  | null => simp [extractTabsData] at h
  | bool b => simp [extractTabsData] at h
  | num q => simp [extractTabsData] at h
  | str s => simp [extractTabsData] at h
  | arr xs => simp [extractTabsData] at h

/-- Inversion for the success path of `select_tabs_with_llm`: an `ok` result
is exactly the parse of the environment's `tabs` items, truncated to
`max_tabs` entries. -/
theorem select_tabs_ok_inv (env : LlmEnv) (prompt : String)
    (bookmarks : List BookmarkPayload)
    (history : Option (List BrowsingHistoryPayload))
    (open_tabs : Option (List OpenTabPayload)) (max_tabs : Int)
    (l : List TabSuggestion)
    (hok : select_tabs_with_llm env prompt bookmarks history open_tabs
      max_tabs = Except.ok l) :
    l = ((envTabItems env).filterMap parseTabItem).take max_tabs.toNat := by
  by_cases h1 : pyStrip prompt = ""
  · rw [select_tabs_with_llm, if_pos h1] at hok
    exact absurd hok (by simp)
  by_cases h2 : bookmarks = []
  · rw [select_tabs_with_llm, if_neg h1, if_pos h2] at hok
    exact absurd hok (by simp)
  by_cases h3 : max_tabs ≤ 0
  · rw [select_tabs_with_llm, if_neg h1, if_neg h2, if_pos h3] at hok
    exact absurd hok (by simp)
  rw [select_tabs_with_llm, if_neg h1, if_neg h2, if_neg h3] at hok
  by_cases hk : env.apiKey.getD "" = ""
  · simp [get_client, if_pos hk] at hok
  simp only [get_client, if_neg hk] at hok
  cases henv : env.apiResult with
  | error msg => simp [henv] at hok
  | ok response =>
    simp only [henv] at hok
    cases hch : response.choices with
    | nil => simp [hch] at hok
    | cons choice rest =>
      simp only [hch] at hok
      cases hmsg : choice.message with
      | none => simp [hmsg] at hok
      | some message =>
        simp only [hmsg] at hok
        cases hcon : message.content with
        | none => simp [hcon] at hok
        | some pc =>
          simp only [hcon] at hok
          cases pc with
          | invalid => simp at hok
          | json payload =>
            cases hex : extractTabsData payload with
            | error e => simp [hex] at hok
            | ok items =>
              simp only [hex, Except.ok.injEq] at hok
              obtain ⟨fields, hpay, hlook⟩ := extractTabsData_ok_inv hex
              rw [← hok]
              simp [envTabItems, henv, hch, hmsg, hcon, hpay, hlook]

/-- Every successfully parsed `tabs` item whose numeric score obeys the unit
interval yields a suggestion whose score is in the unit interval (the default
for an absent score being `1/2`). -/
theorem parseTabItem_score_bounds (item : Json) (s : TabSuggestion)
    (hp : parseTabItem item = some s) (hs : scoreOk item) :
    0 ≤ s.score ∧ s.score ≤ 1 := by
  cases item with
  | null => exact absurd hp (by simp [parseTabItem])
  | bool b => exact absurd hp (by simp [parseTabItem])
  | num q => exact absurd hp (by simp [parseTabItem])
  | str s2 => exact absurd hp (by simp [parseTabItem])
  | arr xs => exact absurd hp (by simp [parseTabItem])
  | obj fields =>
    cases ht : jsonLookup fields "title" with
    | none => simp [parseTabItem, ht] at hp
    | some t =>
      cases hu : jsonLookup fields "url" with
      | none => simp [parseTabItem, ht, hu] at hp
      | some u =>
        cases hsc : jsonLookup fields "score" with
        | none =>
          simp only [parseTabItem, ht, hu, hsc] at hp
          obtain rfl := Option.some.inj hp
          constructor <;> norm_num
        | some v =>
          cases hf : pyFloat v with
          | none => simp [parseTabItem, ht, hu, hsc, hf] at hp
          | some q =>
            simp only [parseTabItem, ht, hu, hsc, hf] at hp
            obtain rfl := Option.some.inj hp
            exact hs fields rfl v hsc q hf

/-- Successful `mkTabs` preserves the list length. -/
theorem mkTabs_ok_length :
    ∀ l ts, mkTabs l = Except.ok ts → ts.length = l.length := by
  intro l
  induction l with
  | nil =>
    intro ts h
    simp only [mkTabs, Except.ok.injEq] at h
    rw [← h]; rfl
  | cons s rest ih =>
    intro ts h
    simp only [mkTabs] at h
    cases hm : mkTab s with
    | error e => simp [hm] at h
    | ok t =>
      simp only [hm] at h
      cases hr : mkTabs rest with
      | error e => simp [hr] at h
      | ok ts2 =>
        simp only [hr, Except.ok.injEq] at h
        rw [← h]
        simp [ih ts2 hr]

/-! ### C7 -/

/-- C7 as stated is false: the parsing loop never clamps or validates the
score range, so a model response carrying a score outside `[0, 1]` yields a
`TabSuggestion` whose score is outside `[0, 1]`, here score 2. -/
theorem llm_score_range_cex :
    select_tabs_with_llm (LlmEnv.mk (some "sk-test") (Except.ok
        (ChatResponse.mk [ChatChoice.mk (some (ChatMessage.mk (some
          (ParsedContent.json (Json.obj [("tabs", Json.arr [Json.obj
            [("title", Json.str "T"), ("url", Json.str "https://a"),
             ("reason", Json.str "R"), ("score", Json.num 2)]])])))))])))
        "p" [Bookmark.mk "Docs" "https://a" none none] none none 3 =
      Except.ok [TabSuggestion.mk (Json.str "T") (Json.str "https://a")
        (Json.str "R") 2] ∧
    ¬((2 : ℚ) ≤ 1) :=
  ⟨rfl, by norm_num⟩

/-- C7 amended: every `TabSuggestion` returned by `select_tabs_with_llm` has
its score in `[0, 1]` provided every numeric score among the response's `tabs`
items lies in `[0, 1]` (an absent score defaults to `1/2`); the code performs
no clamping, so out-of-range model scores pass through unchanged. -/
theorem select_tabs_score_in_range (env : LlmEnv) (prompt : String)
    (bookmarks : List BookmarkPayload)
    (history : Option (List BrowsingHistoryPayload))
    (open_tabs : Option (List OpenTabPayload)) (max_tabs : Int)
    (l : List TabSuggestion)
    (hok : select_tabs_with_llm env prompt bookmarks history open_tabs
      max_tabs = Except.ok l)
    (hsc : ∀ item ∈ envTabItems env, scoreOk item) :
    ∀ s ∈ l, 0 ≤ s.score ∧ s.score ≤ 1 := by
  intro s hsl
  have hinv := select_tabs_ok_inv env prompt bookmarks history open_tabs
    max_tabs l hok
  rw [hinv] at hsl
  have hmem : s ∈ (envTabItems env).filterMap parseTabItem :=
    List.mem_of_mem_take hsl
  obtain ⟨item, hitem, hps⟩ := List.mem_filterMap.mp hmem
  exact parseTabItem_score_bounds item s hps (hsc item hitem)

/-- Witness for the amended C7: a response whose single item omits `score`,
so the default `1/2` applies. -/
theorem select_tabs_score_in_range_witness :
    0 ≤ (TabSuggestion.mk (Json.str "T") (Json.str "https://a")
      (Json.str "R") (1 / 2)).score ∧
    (TabSuggestion.mk (Json.str "T") (Json.str "https://a")
      (Json.str "R") (1 / 2)).score ≤ 1 :=
  select_tabs_score_in_range
    (LlmEnv.mk (some "sk-test") (Except.ok (ChatResponse.mk [ChatChoice.mk
      (some (ChatMessage.mk (some (ParsedContent.json (Json.obj [("tabs",
        Json.arr [Json.obj [("title", Json.str "T"),
          ("url", Json.str "https://a"), ("reason", Json.str "R")]])])))))])))
    "p" [Bookmark.mk "Docs" "https://a" none none] none none 3 _ rfl
    (by
      intro item hitem fields hf v hv q hq
      rw [show envTabItems (LlmEnv.mk (some "sk-test") (Except.ok
          (ChatResponse.mk [ChatChoice.mk (some (ChatMessage.mk (some
            (ParsedContent.json (Json.obj [("tabs", Json.arr [Json.obj
              [("title", Json.str "T"), ("url", Json.str "https://a"),
               ("reason", Json.str "R")]])])))))]))) =
          [Json.obj [("title", Json.str "T"), ("url", Json.str "https://a"),
            ("reason", Json.str "R")]] from rfl,
        List.mem_singleton] at hitem
      subst hitem
      injection hf with hfields
      subst hfields
      have hnone : jsonLookup [("title", Json.str "T"),
          ("url", Json.str "https://a"), ("reason", Json.str "R")] "score" =
          (none : Option Json) := rfl
      rw [hnone] at hv
      exact Option.noConfusion hv)
    (TabSuggestion.mk (Json.str "T") (Json.str "https://a")
      (Json.str "R") (1 / 2))
    (List.mem_cons_self _ _)

/-! ### C10 -/

/-- C10: a non-positive `limit` query parameter on `/tabs` is silently
replaced by the default 5 before the planner runs — the handler behaves
exactly as if `limit = 5` had been passed, so the result is capped at 5
suggestions; the value is neither rejected as a validation failure nor
treated as "no cap". -/
theorem plan_tabs_nonpositive_limit_default (env : LlmEnv) (prompt : String)
    (bookmarks : List Bookmark) (limit : Int) (model : Option String)
    (temperature : ℚ) (h : limit ≤ 0) :
    plan_tabs_llm env prompt bookmarks limit model temperature =
      plan_tabs_llm env prompt bookmarks 5 model temperature ∧
    ∀ tabs, plan_tabs_llm env prompt bookmarks limit model temperature =
      HttpResult.ok tabs → tabs.length ≤ 5 := by
  have hmax : (if 0 < limit then limit else MAX_TABS_DEFAULT) = (5 : Int) := by
    rw [if_neg (not_lt.mpr h)]; rfl
  constructor
  · simp only [plan_tabs_llm, hmax, if_pos (by norm_num : (0 : Int) < 5)]
  · intro tabs htabs
    simp only [plan_tabs_llm, hmax] at htabs
    cases hsel : select_tabs_with_llm env prompt bookmarks none none 5 with
    | error e =>
      rw [hsel] at htabs
      cases e <;> simp at htabs
    | ok suggestions =>
      rw [hsel] at htabs
      cases suggestions with
      | nil => simp at htabs
      | cons s rest =>
        cases hmk : mkTabs (s :: rest) with
        | error e => simp [hmk] at htabs
        | ok ts =>
          simp only [hmk, HttpResult.ok.injEq] at htabs
          have hlen1 : ts.length = (s :: rest).length := mkTabs_ok_length _ _ hmk
          have htake := select_tabs_ok_inv env prompt bookmarks none none 5
            (s :: rest) hsel
          have hlen2 : (s :: rest).length ≤ (5 : Int).toNat := by
            rw [htake]
            exact le_trans (List.length_take _ _).le (min_le_left _ _)
          rw [← htabs, hlen1]
          exact hlen2

/-- Witness for C10 at `limit = 0` and a concrete environment. -/
theorem plan_tabs_nonpositive_limit_default_witness :
    ((0 : Int) ≤ 0) ∧
    (plan_tabs_llm (LlmEnv.mk none (Except.ok (ChatResponse.mk [])))
        "p" [Bookmark.mk "Docs" "https://a" none none] 0 none (2 / 10) =
      plan_tabs_llm (LlmEnv.mk none (Except.ok (ChatResponse.mk [])))
        "p" [Bookmark.mk "Docs" "https://a" none none] 5 none (2 / 10) ∧
    ∀ tabs, plan_tabs_llm (LlmEnv.mk none (Except.ok (ChatResponse.mk [])))
        "p" [Bookmark.mk "Docs" "https://a" none none] 0 none (2 / 10) =
      HttpResult.ok tabs → tabs.length ≤ 5) :=
  ⟨le_refl 0,
    plan_tabs_nonpositive_limit_default
      (LlmEnv.mk none (Except.ok (ChatResponse.mk [])))
      "p" [Bookmark.mk "Docs" "https://a" none none] 0 none (2 / 10)
      (le_refl 0)⟩

/-! ### C4 -/

/-- C4: LLM response items are converted defensively — the concrete response
holding one well-formed item and one item missing `url` yields exactly the one
well-formed suggestion; in general an item missing `title` or missing `url`
is dropped, an item whose `score` value `float()` rejects is dropped, a
missing `reason` defaults to the fixed placeholder, and a missing `score`
defaults to `0.5`. -/
theorem parse_tabs_partial_success :
    (select_tabs_with_llm envTwoItems "p"
        [Bookmark.mk "Docs" "https://a" none none] none none 5 =
      Except.ok [TabSuggestion.mk (Json.str "T") (Json.str "https://a")
        (Json.str "R") (7 / 10)]) ∧
    (∀ fields, jsonLookup fields "title" = none →
      parseTabItem (Json.obj fields) = none) ∧
    (∀ fields, jsonLookup fields "url" = none →
      parseTabItem (Json.obj fields) = none) ∧
    (∀ fields v, jsonLookup fields "score" = some v → pyFloat v = none →
      parseTabItem (Json.obj fields) = none) ∧
    (∀ fields t u, jsonLookup fields "title" = some t →
      jsonLookup fields "url" = some u →
      jsonLookup fields "reason" = none →
      jsonLookup fields "score" = none →
      parseTabItem (Json.obj fields) =
        some (TabSuggestion.mk t u (Json.str "No reason provided.") (1 / 2))) := by
  refine ⟨rfl, ?_, ?_, ?_, ?_⟩
  · intro fields h
    simp [parseTabItem, h]
  · intro fields h
    cases ht : jsonLookup fields "title" <;> simp [parseTabItem, ht, h]
  · intro fields v h hf
    cases ht : jsonLookup fields "title" <;>
      cases hu : jsonLookup fields "url" <;>
        simp [parseTabItem, ht, hu, h, hf]
  · intro fields t u h1 h2 h3 h4
    simp [parseTabItem, h1, h2, h3, h4]

/-- Witness for C4 instantiating each dropped and defaulted case. -/
theorem parse_tabs_partial_success_witness :
    parseTabItem (Json.obj [("url", Json.str "u")]) = none ∧
    parseTabItem (Json.obj [("title", Json.str "t")]) = none ∧
    parseTabItem (Json.obj [("title", Json.str "t"), ("url", Json.str "u"),
      ("score", Json.null)]) = none ∧
    parseTabItem (Json.obj [("title", Json.str "t"), ("url", Json.str "u")]) =
      some (TabSuggestion.mk (Json.str "t") (Json.str "u")
        (Json.str "No reason provided.") (1 / 2)) :=
  ⟨parse_tabs_partial_success.2.1 _ rfl,
    parse_tabs_partial_success.2.2.1 _ rfl,
    parse_tabs_partial_success.2.2.2.1 _ _ rfl rfl,
    parse_tabs_partial_success.2.2.2.2 _ _ _ rfl rfl rfl rfl⟩

/-! ### C2 -/

/-- Transitivity of the ranking comparison. -/
theorem rankLE_trans (a b c : HeuristicSuggestion)
    (hab : rankLE a b = true) (hbc : rankLE b c = true) :
    rankLE a c = true := by
  simp only [rankLE, decide_eq_true_iff] at hab hbc ⊢
  rcases hab with hab | ⟨hab1, hab2⟩ <;> rcases hbc with hbc | ⟨hbc1, hbc2⟩
  · exact Or.inl (lt_trans hbc hab)
  · exact Or.inl (by rw [← hbc1]; exact hab)
  · exact Or.inl (by rw [hab1]; exact hbc)
  · exact Or.inr ⟨hab1.trans hbc1, le_trans hab2 hbc2⟩

/-- Totality of the ranking comparison. -/
theorem rankLE_total (a b : HeuristicSuggestion) :
    (rankLE a b || rankLE b a) = true := by
  simp only [rankLE, Bool.or_eq_true, decide_eq_true_iff]
  rcases lt_trichotomy a.score b.score with h | h | h
  · exact Or.inr (Or.inl h)
  · rcases Nat.le_total a.index b.index with hi | hi
    · exact Or.inl (Or.inr ⟨h, hi⟩)
    · exact Or.inr (Or.inr ⟨h.symm, hi⟩)
  · exact Or.inl (Or.inl h)

/-- C2: for every nonempty prompt and nonempty bookmark list, the heuristic
ranker returns at most `limit` suggestions when `limit` is positive; the
output is sorted by non-increasing score with ties resolved by strictly
ascending original input index (the stable order); and when `limit ≤ 0` the
output is all the input bookmarks, each with its original index — no
truncation. -/
theorem heuristic_rank_props (prompt : String) (bookmarks : List Bookmark)
    (limit : Int) (hp : prompt ≠ "") (hb : bookmarks ≠ []) :
    ((0 < limit →
      ((heuristic_rank prompt bookmarks limit).length : Int) ≤ limit) ∧
     List.Pairwise (fun a b => b.score < a.score ∨
       (a.score = b.score ∧ a.index < b.index))
       (heuristic_rank prompt bookmarks limit)) ∧
    (limit ≤ 0 →
      ((heuristic_rank prompt bookmarks limit).map
        fun s => (s.index, s.bookmark)).Perm bookmarks.enum) := by
  simp only [heuristic_rank]
  set pts := tokenize prompt with hpts
  set scored := bookmarks.enum.map
    (fun p => HeuristicSuggestion.mk p.1 p.2 (score_bookmark p.2 pts).1
      (score_bookmark p.2 pts).2) with hscored
  set ranked := scored.mergeSort rankLE with hranked
  have hsorted : List.Pairwise (fun a b => rankLE a b = true) ranked := by
    rw [hranked]
    exact List.sorted_mergeSort rankLE_trans rankLE_total scored
  have hperm : ranked.Perm scored := by
    rw [hranked]
    exact List.mergeSort_perm scored rankLE
  have hidx : scored.map (fun s => s.index) = List.range bookmarks.length := by
    rw [hscored, List.map_map]
    exact List.enum_map_fst bookmarks
  have hnodup : (ranked.map fun s => s.index).Nodup :=
    (hperm.map (fun s => s.index)).nodup_iff.mpr
      (by rw [hidx]; exact List.nodup_range _)
  have hpairneq : List.Pairwise (fun a b => a.index ≠ b.index) ranked :=
    List.pairwise_map.mp hnodup
  have hstrict : List.Pairwise (fun a b => b.score < a.score ∨
      (a.score = b.score ∧ a.index < b.index)) ranked := by
    refine (hsorted.and hpairneq).imp ?_
    intro a b hr
    obtain ⟨hr, hne⟩ := hr
    rw [rankLE, decide_eq_true_iff] at hr
    rcases hr with h | ⟨h1, h2⟩
    · exact Or.inl h
    · exact Or.inr ⟨h1, lt_of_le_of_ne h2 hne⟩
  refine ⟨⟨?_, ?_⟩, ?_⟩
  · intro hpos
    rw [if_neg (not_le.mpr hpos)]
    have hlen : (ranked.take limit.toNat).length ≤ limit.toNat := by
      rw [List.length_take]
      exact min_le_left _ _
    calc ((ranked.take limit.toNat).length : Int)
        ≤ (limit.toNat : Int) := by exact_mod_cast hlen
      _ = limit := Int.toNat_of_nonneg (le_of_lt hpos)
  · by_cases hl : limit ≤ 0
    · rw [if_pos hl]
      exact hstrict
    · rw [if_neg hl]
      exact hstrict.sublist (List.take_sublist _ _)
  · intro hl
    rw [if_pos hl]
    have h1 : (ranked.map fun s => (s.index, s.bookmark)).Perm
        (scored.map fun s => (s.index, s.bookmark)) := hperm.map _
    have h2 : scored.map (fun s => (s.index, s.bookmark)) = bookmarks.enum := by
      rw [hscored, List.map_map]
      have hid : ((fun s : HeuristicSuggestion => (s.index, s.bookmark)) ∘
          (fun p : ℕ × Bookmark => HeuristicSuggestion.mk p.1 p.2
            (score_bookmark p.2 pts).1 (score_bookmark p.2 pts).2)) =
          id := funext fun p => rfl
      rw [hid, List.map_id]
    exact h2 ▸ h1

/-- Witness for C2 at a concrete prompt, bookmark list and limit. -/
theorem heuristic_rank_props_witness :
    ("rust" ≠ "" ∧ [Bookmark.mk "Rust" "https://r" none none] ≠ []) ∧
    (((0 < (1 : Int) →
      ((heuristic_rank "rust" [Bookmark.mk "Rust" "https://r" none none]
        1).length : Int) ≤ 1) ∧
     List.Pairwise (fun a b => b.score < a.score ∨
       (a.score = b.score ∧ a.index < b.index))
       (heuristic_rank "rust" [Bookmark.mk "Rust" "https://r" none none] 1)) ∧
    ((1 : Int) ≤ 0 →
      ((heuristic_rank "rust" [Bookmark.mk "Rust" "https://r" none none]
        1).map fun s => (s.index, s.bookmark)).Perm
        [Bookmark.mk "Rust" "https://r" none none].enum)) :=
  ⟨⟨by decide, by decide⟩,
    heuristic_rank_props "rust" [Bookmark.mk "Rust" "https://r" none none] 1
      (by decide) (by decide)⟩

end TabPlanner
